import Mathlib

/-
Verification of the testflinger device-provisioning orchestrator.

Shallow embedding of:
  src/devices/muxpi/muxpi.py                                   (class MuxPi)
  src/device-connectors/src/testflinger_device_connectors/devices/zapper/__init__.py
                                                               (class ZapperConnector)

The embedding models a run as explicit state passing: the state carries an
oracle giving the result of each external call (ssh remote command, local
subprocess, RPC), a call counter, a wall clock, and a trace of observable
side effects. Python exceptions are modelled by an error monad over that
state. Each Lean definition is translated from the corresponding Python
function; external collaborators that are out of scope for the spec
(image download, compression, the file server) are modelled as effects
recorded on the trace.
-/

namespace Testflinger

/-- Python exception values raised by the embedded code. -/
inductive PyErr where
  | keyError (key : String)
  | provisioningError (msg : String)
  | recoveryError (msg : String)
  | calledProcessError (output : String)
  | timeoutExpired (output : String)
  | typeError (msg : String)
  | attributeError (msg : String)
  | otherError (msg : String)
deriving DecidableEq

deriving instance DecidableEq for Except

/-- Result of one external call (subprocess or network), as supplied by the
environment oracle: the captured combined stdout+stderr, tagged with whether
the call succeeded, exited non-zero, or hit its timeout. -/
inductive SpRes where
  | success (output : String)
  | calledProcessError (output : String)
  | timeoutExpired (output : String)
deriving DecidableEq

/-- Observable side effects of a run, recorded on the trace in order. -/
inductive Effect where
  | runCmd (cmd : String)
  | localCmd (argv : List String)
  | sleep (secs : Nat)
  | download (url : String)
  | compress (path : String)
  | serverStart (path : String)
  | serverTerminate
  | configureLogging
  | connect (host : String) (port : Nat)
  | rpcProvision (method : String) (args : List String) (withLogger : Bool)
      (kwargs : List (String × String))
deriving DecidableEq

/-- JSON (and YAML) values, used for the parsed output of lsblk and for the
loaded device config of the zapper connector. -/
inductive Json where
  | null
  | bool (b : Bool)
  | num (n : Int)
  | str (s : String)
  | arr (elems : List Json)
  | obj (fields : List (String × Json))

/-- Execution state: the environment oracle for external calls (result and
duration of the n-th call), the call counter, the wall clock in seconds, the
effect trace, and per-run environment constants. -/
structure St where
  calls : Nat → SpRes × Nat
  k : Nat
  now : Nat
  trace : List Effect
  local_ip : String
  serve_port : Nat
  parse_json : String → Option Json
  read_yaml : String → Option Json

/-- Computations over the execution state that may raise a Python exception. -/
def M (α : Type) : Type := St → Except PyErr α × St

def M.pure (a : α) : M α := fun s => (Except.ok a, s)

def M.bind (x : M α) (f : α → M β) : M β := fun s =>
  match x s with
  | (Except.ok a, s1) => f a s1
  | (Except.error e, s1) => (Except.error e, s1)

instance : Monad M where
  pure := M.pure
  bind := M.bind

/-- Raise a Python exception. -/
def raiseE (e : PyErr) : M α := fun s => (Except.error e, s)

/-- Python try/except with a handler receiving the raised exception. -/
def pytry (x : M α) (h : PyErr → M α) : M α := fun s =>
  match x s with
  | (Except.error e, s1) => h e s1
  | r => r

/-- Python dict subscription d[key]: raises KeyError when the key is absent. -/
def dictGet (v : Option α) (key : String) : M α := fun s =>
  match v with
  | some a => (Except.ok a, s)
  | none => (Except.error (PyErr.keyError key), s)

/-- One external call: consumes the next oracle entry, records the effect,
advances the clock by the duration of the call, and returns the captured
output or raises the corresponding subprocess exception. -/
def extCall (eff : Effect) : M String := fun s =>
  let r := s.calls s.k
  let s1 : St := { s with
      k := s.k + 1
      now := s.now + r.2
      trace := s.trace ++ [eff] }
  match r.1 with
  | SpRes.success out => (Except.ok out, s1)
  | SpRes.calledProcessError out => (Except.error (PyErr.calledProcessError out), s1)
  | SpRes.timeoutExpired out => (Except.error (PyErr.timeoutExpired out), s1)

/-- The state after one external call. -/
def afterCall (eff : Effect) (s : St) : St := (extCall eff s).2

/-- Python time.sleep: advances the clock and records the effect. -/
def sleepM (n : Nat) : M Unit := fun s =>
  (Except.ok (), { s with now := s.now + n, trace := s.trace ++ [Effect.sleep n] })

/-- Splitting a character list at whitespace, accumulating the current
field in reverse. -/
def charsSplitWs : List Char → List Char → List (List Char)
  | [], cur => [cur.reverse]
  | c :: rest, cur =>
    if c.isWhitespace then cur.reverse :: charsSplitWs rest []
    else charsSplitWs rest (c :: cur)

/-- Python str.split() with no argument: split on whitespace, dropping
empty fields. -/
def pySplit (s : String) : List String :=
  ((charsSplitWs s.toList []).map (fun cs => String.mk cs)).filter (fun t => t ≠ "")

/-- Device config mapping (muxpi): keys read by the MuxPi agent. Keys read
with .get are Option-valued; the script lists default to empty. -/
structure Config where
  control_host : Option String
  control_user : Option String
  test_device : Option String
  control_switch_local_cmd : Option String
  control_switch_device_cmd : Option String
  reboot_script : List String
  post_provision_script : List String
  device_ip : Option String

/-- The test_data section of the job data. -/
structure TestData where
  test_username : Option String
  test_password : Option String

/-- The provision_data section of the job data. -/
structure ProvisionData where
  url : Option String

/-- Job data mapping: a missing section or key is None. -/
structure JobData where
  provision_data : Option ProvisionData
  test_data : Option TestData

/-- The MuxPi device agent: its loaded config and job data. -/
structure MuxPi where
  config : Config
  job_data : JobData

/-- The ssh invocation built by MuxPi._run_control (Python formats None as
the string None when control_host is missing). -/
def MuxPi.ssh_cmd (self : MuxPi) (cmd : String) : List String :=
  ["ssh", "-o", "StrictHostKeyChecking=no", "-o", "UserKnownHostsFile=/dev/null",
   (self.config.control_user.getD "ubuntu") ++ "@" ++
     (match self.config.control_host with | some h => h | none => "None"),
   cmd]

/-- MuxPi._run_control: run a command on the control host over ssh.
subprocess.check_output raising CalledProcessError is mapped to
ProvisioningError carrying the captured output; a TimeoutExpired is not
caught and propagates. The timeout argument has no observable role beyond
the oracle-supplied outcome. -/
def MuxPi._run_control (self : MuxPi) (cmd : String) (timeout : Nat) : M String := fun s =>
  match extCall (Effect.runCmd cmd) s with
  | (Except.error (PyErr.calledProcessError out), s1) =>
      (Except.error (PyErr.provisioningError out), s1)
  | r => r

/-- MuxPi.remote_mount: generator-based context manager. Mount, run the body,
and unconditionally issue the umount in the finally block; an exception
raised by the umount replaces the result of the body (Python finally
semantics). -/
def MuxPi.remote_mount (self : MuxPi) (remote_device : String) (mount_point : String)
    (body : M α) : M α := fun s =>
  match self._run_control ("sudo mount /dev/" ++ remote_device ++ " " ++ mount_point) 60 s with
  | (Except.error e, s1) => (Except.error e, s1)
  | (Except.ok _, s1) =>
    match body s1 with
    | (Except.ok a, s2) =>
      match self._run_control ("sudo umount " ++ mount_point) 60 s2 with
      | (Except.ok _, s3) => (Except.ok a, s3)
      | (Except.error e, s3) => (Except.error e, s3)
    | (Except.error e, s2) =>
      match self._run_control ("sudo umount " ++ mount_point) 60 s2 with
      | (Except.ok _, s3) => (Except.error e, s3)
      | (Except.error e2, s3) => (Except.error e2, s3)

/-- MuxPi.unmount_writable_partition: umount the partitions of test_device;
a KeyError (missing test_device in the config) becomes RecoveryError, any
other failure of the command is swallowed. -/
def MuxPi.unmount_writable_partition (self : MuxPi) : M Unit :=
  pytry
    (M.bind (dictGet self.config.test_device "test_device") (fun td =>
      M.bind (self._run_control ("sudo umount " ++ td ++ "*") 30) (fun _ =>
        M.pure ())))
    (fun e => match e with
      | PyErr.keyError _ => raiseE (PyErr.recoveryError "Device config missing test_device")
      | _ => M.pure ())

/-- MuxPi.flash_test_image: unmount first (best effort), then stream the
image through the nc | xzcat | dd pipeline; failure is ProvisioningError.
A failing sync is tolerated by sleeping 30 seconds; a failing hdparm
partition rescan is ProvisioningError. -/
def MuxPi.flash_test_image (self : MuxPi) (server_ip : String) (server_port : Nat) :
    M Unit := do
  self.unmount_writable_partition
  let td ← dictGet self.config.test_device "test_device"
  let cmd := "nc.traditional " ++ server_ip ++ " " ++ toString server_port ++
    "| xzcat| sudo dd of=" ++ td ++ " bs=16M"
  pytry
    (do let _ ← self._run_control cmd 1800
        M.pure ())
    (fun _ => raiseE (PyErr.provisioningError "timeout reached while flashing image!"))
  pytry
    (do let _ ← self._run_control "sync" 60
        M.pure ())
    (fun _ => sleepM 30)
  pytry
    (do let _ ← self._run_control ("sudo hdparm -z " ++ td) 30
        M.pure ())
    (fun _ => raiseE (PyErr.provisioningError "Unable to run hdparm to rescan partitions"))

/-- The loop body of MuxPi.hardreset: run each reboot_script command locally;
any failure becomes RecoveryError. -/
def MuxPi.hardreset_loop : List String → M Unit
  | [] => M.pure ()
  | cmd :: rest => fun s =>
    match extCall (Effect.localCmd (pySplit cmd)) s with
    | (Except.ok _, s1) => MuxPi.hardreset_loop rest s1
    | (Except.error _, s1) =>
        (Except.error (PyErr.recoveryError "timeout reaching control host!"), s1)

/-- MuxPi.hardreset: reboot the device via the configured reboot_script. -/
def MuxPi.hardreset (self : MuxPi) : M Unit :=
  MuxPi.hardreset_loop self.config.reboot_script

/-- Association lookup in a JSON object. -/
def jsonLookup : List (String × Json) → String → Option Json
  | [], _ => none
  | (key, v) :: rest, wanted => if key == wanted then some v else jsonLookup rest wanted

/-- Python subscription j[key] on a JSON value. -/
def json_getitem (j : Json) (key : String) : M Json := fun s =>
  match j with
  | Json.obj kvs =>
    match jsonLookup kvs key with
    | some v => (Except.ok v, s)
    | none => (Except.error (PyErr.keyError key), s)
  | _ => (Except.error (PyErr.typeError "value is not subscriptable"), s)

/-- Python subscription j[0] on a JSON value. -/
def json_index0 (j : Json) : M Json := fun s =>
  match j with
  | Json.arr (x :: _) => (Except.ok x, s)
  | Json.arr [] => (Except.error (PyErr.otherError "IndexError: list index out of range"), s)
  | _ => (Except.error (PyErr.typeError "value is not subscriptable"), s)

/-- Python j.get(key) on a JSON value: None for a missing key, AttributeError
when the value is not a dict. -/
def json_dict_get (j : Json) (key : String) : M (Option Json) := fun s =>
  match j with
  | Json.obj kvs => (Except.ok (jsonLookup kvs key), s)
  | _ => (Except.error (PyErr.attributeError "value has no attribute get"), s)

/-- Python truthiness of a JSON value. -/
def truthy : Json → Bool
  | Json.null => false
  | Json.bool b => b
  | Json.num n => n ≠ 0
  | Json.str s => s ≠ ""
  | Json.arr xs => !xs.isEmpty
  | Json.obj kvs => !kvs.isEmpty

mutual

/-- Python repr of a JSON value (used by str for container values). -/
def pyRepr : Json → String
  | Json.null => "None"
  | Json.bool true => "True"
  | Json.bool false => "False"
  | Json.num n => toString n
  | Json.str s => "\x27" ++ s ++ "\x27"
  | Json.arr xs => "[" ++ pyReprList xs ++ "]"
  | Json.obj kvs => "\x7b" ++ pyReprObj kvs ++ "\x7d"

def pyReprList : List Json → String
  | [] => ""
  | [x] => pyRepr x
  | x :: y :: rest => pyRepr x ++ ", " ++ pyReprList (y :: rest)

def pyReprObj : List (String × Json) → String
  | [] => ""
  | [(key, v)] => "\x27" ++ key ++ "\x27: " ++ pyRepr v
  | (key, v) :: y :: rest => "\x27" ++ key ++ "\x27: " ++ pyRepr v ++ ", " ++ pyReprObj (y :: rest)

end

/-- Python str() of a JSON value. -/
def pyStr : Json → String
  | Json.str s => s
  | j => pyRepr j

/-- The list comprehension of MuxPi.get_image_type:
[x.get(name) for x in children if x.get(name)] rendered as strings. -/
def collect_names : List Json → M (List String)
  | [] => M.pure []
  | x :: xs => fun s =>
    match json_dict_get x "name" s with
    | (Except.error e, s1) => (Except.error e, s1)
    | (Except.ok n, s1) =>
      match collect_names xs s1 with
      | (Except.error e, s2) => (Except.error e, s2)
      | (Except.ok rest, s2) =>
        match n with
        | some v => if truthy v then (Except.ok (pyStr v :: rest), s2) else (Except.ok rest, s2)
        | none => (Except.ok rest, s2)

/-- Python json.loads on the decoded lsblk output, through the per-run
parse oracle; invalid JSON raises. -/
def json_loads (out : String) : M Json := fun s =>
  match s.parse_json out with
  | some j => (Except.ok j, s)
  | none => (Except.error (PyErr.otherError "json.loads: invalid JSON"), s)

/-- Extraction of the child partition names from the parsed lsblk JSON. -/
def lsblk_dev_list (j : Json) : M (List String) := do
  let bd ← json_getitem j "blockdevices"
  let first ← json_index0 bd
  let children ← json_getitem first "children"
  match children with
  | Json.arr xs => collect_names xs
  | _ => raiseE (PyErr.typeError "value is not iterable")

/-- MuxPi.IMAGE_PATH_IDS, in dict insertion order. -/
def IMAGE_PATH_IDS : List (String × String) :=
  [("etc", "ubuntu"), ("system-data", "core"), ("snaps", "core20")]

/-- The marker scan inside the mounted candidate: the first IMAGE_PATH_IDS
entry whose path occurs in the whitespace-split ls output, paired with the
candidate device. -/
def findMarkerRes (dirs : String) (dev : String) : Option (String × String) :=
  (IMAGE_PATH_IDS.find? (fun p => (pySplit dirs).contains p.1)).map (fun p => (p.2, dev))

/-- The for loop of MuxPi.get_image_type: mount each candidate, list /mnt and
scan for markers; a first successful classification returns, any exception
for a candidate is swallowed and the next candidate is tried; after the loop
the result is unknown paired with the current loop variable. -/
def MuxPi.get_image_type_loop (self : MuxPi) : List String → String → M (String × String)
  | [], last => fun s => (Except.ok ("unknown", last), s)
  | dev :: rest, _ => fun s =>
    match MuxPi.remote_mount self dev "/mnt"
        (M.bind (self._run_control "ls /mnt" 60) (fun dirs =>
          M.pure (findMarkerRes dirs dev))) s with
    | (Except.ok (some r), s1) => (Except.ok r, s1)
    | (Except.ok none, s1) => MuxPi.get_image_type_loop self rest dev s1
    | (Except.error _, s1) => MuxPi.get_image_type_loop self rest dev s1

/-- MuxPi.get_image_type: list the children of test_device with lsblk and
classify the installed image by the marker scan loop. -/
def MuxPi.get_image_type (self : MuxPi) : M (String × String) := do
  let dev ← dictGet self.config.test_device "test_device"
  let lsblk_data ← self._run_control ("lsblk -J " ++ dev) 60
  let lsblk_json ← json_loads lsblk_data
  let dev_list ← lsblk_dev_list lsblk_json
  self.get_image_type_loop dev_list dev

/-- The metadata document written by MuxPi.create_user. -/
def cloud_metadata : String := "instance_id: cloud-image"

/-- The userdata document written by MuxPi.create_user. -/
def cloud_userdata : String :=
  "#cloud-config\npassword: ubuntu\nchpasswd:\n    list:\n        - ubuntu:ubuntu\n    expire: False\nssh_pwauth: True"

/-- The core20 cloud-init document written by MuxPi.create_user. -/
def uc20_ci_data : String :=
  "#cloud-config\ndatasource_list: [ NoCloud, None ]\ndatasource:\n  NoCloud:\n    user-data: |\n      #cloud-config\n      password: ubuntu\n      chpasswd:\n          list:\n              - ubuntu:ubuntu\n          expire: False\n      ssh_pwauth: True\n    meta-data: |\n      instance_id: cloud-image"

/-- The write_cmd format string of MuxPi.create_user (note the literal extra
leading slash before the path, as in the source format string). -/
def write_cmd (data ci_path fname : String) : String :=
  "sudo bash -c \"echo \x27" ++ data ++ "\x27 > /" ++ ci_path ++ "/" ++ fname ++ "\""

/-- MuxPi.create_user: write cloud-init credentials for the detected image
type; for plain ubuntu additionally remove the conflicting default cloud-init
fragment; any failure becomes ProvisioningError. -/
def MuxPi.create_user (self : MuxPi) (image_type : String) : M Unit :=
  let base := if image_type == "core" then "/mnt/system-data" else "/mnt"
  pytry
    (if image_type == "core20" then do
      let ci_path := base ++ "/data/etc/cloud/cloud.cfg.d"
      let _ ← self._run_control ("sudo mkdir -p " ++ ci_path) 60
      let _ ← self._run_control (write_cmd uc20_ci_data ci_path "99_nocloud.cfg") 60
      M.pure ()
    else do
      let ci_path := base ++ "/var/lib/cloud/seed/nocloud-net"
      let _ ← self._run_control ("sudo mkdir -p " ++ ci_path) 60
      let _ ← self._run_control (write_cmd cloud_metadata ci_path "meta-data") 60
      let _ ← self._run_control (write_cmd cloud_userdata ci_path "user-data") 60
      if image_type == "ubuntu" then do
        let _ ← self._run_control
          ("sudo rm -f " ++ base ++ "/etc/cloud/cloud.cfg.d/99-fake_cloud.cfg") 60
        M.pure ()
      else M.pure ())
    (fun _ => raiseE (PyErr.provisioningError "Error creating user files"))

/-- The test username from the job data, defaulting to ubuntu. -/
def jobTestUsername (jd : JobData) : String :=
  ((jd.test_data.getD ⟨none, none⟩).test_username).getD "ubuntu"

/-- The test password from the job data, defaulting to ubuntu. -/
def jobTestPassword (jd : JobData) : String :=
  ((jd.test_data.getD ⟨none, none⟩).test_password).getD "ubuntu"

/-- The credential-exchange command of one boot-verification attempt. -/
def check_cmd (user pwd ip : String) : List String :=
  ["sshpass", "-p", pwd, "ssh-copy-id", "-o", "StrictHostKeyChecking=no",
   "-o", "UserKnownHostsFile=/dev/null", user ++ "@" ++ ip]

/-- The while loop of MuxPi.check_test_image_booted: while fewer than 600
seconds have elapsed since started, sleep 10 seconds, then attempt one
credential exchange; any exception of the attempt (including a KeyError from
a missing device_ip) is swallowed and the loop retries; a success returns
True at once; exhausting the budget raises ProvisioningError. -/
def MuxPi.check_loop (self : MuxPi) (user pwd : String) (started : Nat) (s : St) :
    Except PyErr Bool × St :=
  if h : s.now - started < 600 then
    let s1 : St := { s with now := s.now + 10, trace := s.trace ++ [Effect.sleep 10] }
    match self.config.device_ip with
    | none => MuxPi.check_loop self user pwd started s1
    | some ip =>
      let r := s1.calls s1.k
      let s2 : St := { s1 with
          k := s1.k + 1
          now := s1.now + r.2
          trace := s1.trace ++ [Effect.localCmd (check_cmd user pwd ip)] }
      match r.1 with
      | SpRes.success _ => (Except.ok true, s2)
      | _ => MuxPi.check_loop self user pwd started s2
  else (Except.error (PyErr.provisioningError "Failed to boot test image!"), s)
termination_by started + 600 - s.now
decreasing_by
  all_goals omega

/-- MuxPi.check_test_image_booted: the boot verifier. -/
def MuxPi.check_test_image_booted (self : MuxPi) : M Bool := fun s =>
  MuxPi.check_loop self (jobTestUsername self.job_data) (jobTestPassword self.job_data)
    s.now s

/-- The loop body of MuxPi.run_post_provision_script: run each configured
command on the control host, swallowing every failure. -/
def MuxPi.post_provision_loop (self : MuxPi) : List String → M Unit
  | [] => M.pure ()
  | cmd :: rest => fun s =>
    match self._run_control cmd 60 s with
    | (_, s1) => MuxPi.post_provision_loop self rest s1

/-- MuxPi.run_post_provision_script. -/
def MuxPi.run_post_provision_script (self : MuxPi) : M Unit :=
  MuxPi.post_provision_loop self self.config.post_provision_script

/-- Modelled from the spec: snappy_device_agents.download, an out-of-scope
image download utility, modelled as an external effect that succeeds. -/
def download (url : String) : M Unit := fun s =>
  (Except.ok (), { s with trace := s.trace ++ [Effect.download url] })

/-- Modelled from the spec: snappy_device_agents.compress_file, an
out-of-scope compression utility, modelled as an external effect returning
the compressed file name. -/
def compress_file (path : String) : M String := fun s =>
  (Except.ok (path ++ ".xz"), { s with trace := s.trace ++ [Effect.compress path] })

/-- Modelled from the spec: snappy_device_agents.get_local_ip_addr, an
environment query answered by the per-run constant. -/
def get_local_ip_addr : M String := fun s => (Except.ok s.local_ip, s)

/-- Modelled from the spec: starting the background transfer server process
on the given file, recorded as an effect. -/
def file_server_start (path : String) : M Unit := fun s =>
  (Except.ok (), { s with trace := s.trace ++ [Effect.serverStart path] })

/-- Modelled from the spec: the handshake receiving the bound ephemeral port
from the transfer server over the queue. -/
def serve_q_get : M Nat := fun s => (Except.ok s.serve_port, s)

/-- Modelled from the spec: terminating the background transfer server,
recorded as an effect. -/
def file_server_terminate : M Unit := fun s =>
  (Except.ok (), { s with trace := s.trace ++ [Effect.serverTerminate] })

/-- MuxPi.provision: the top-level provisioning state machine. A KeyError on
the provisioning url becomes ProvisioningError before any remote command.
The transfer server is started, the flash pipeline runs, and on the success
path the server is terminated; the trailing except Exception merely
re-raises. -/
def MuxPi.provision (self : MuxPi) : M Unit := do
  pytry
    (do let pd ← dictGet self.job_data.provision_data "provision_data"
        let url ← dictGet pd.url "url"
        download url)
    (fun e => match e with
      | PyErr.keyError _ => raiseE (PyErr.provisioningError
          "You must specify a \"url\" value in the \"provision_data\" section of your job_data")
      | e1 => raiseE e1)
  let cmd := self.config.control_switch_local_cmd.getD "stm -ts"
  let _ ← self._run_control cmd 60
  sleepM 5
  let image_file ← compress_file "snappy.img"
  let server_ip ← get_local_ip_addr
  file_server_start image_file
  let server_port ← serve_q_get
  pytry
    (do self.flash_test_image server_ip server_port
        file_server_terminate
        let td ← self.get_image_type
        self.remote_mount td.2 "/mnt" (self.create_user td.1)
        self.run_post_provision_script
        let cmd2 := self.config.control_switch_device_cmd.getD "stm -dut"
        let _ ← self._run_control cmd2 60
        self.hardreset
        let _ ← self.check_test_image_booted
        M.pure ())
    (fun e => raiseE e)

/-- Pure specification of the image-type detection loop, for refinement: the
first candidate, in listed order, whose mount succeeds, whose listing
succeeds, which contains a marker, and whose scope-exit unmount succeeds,
determines the result; otherwise detection falls through to unknown paired
with the last loop variable. Call k of the oracle is the mount of the
current candidate; a successful mount consumes three calls (mount, ls,
umount), a failed one consumes one. -/
def detectSpec (calls : Nat → SpRes × Nat) : Nat → List String → String → String × String
  | _, [], last => ("unknown", last)
  | kk, dev :: rest, _ =>
    match (calls kk).1 with
    | SpRes.success _ =>
      match (calls (kk + 1)).1, (calls (kk + 2)).1 with
      | SpRes.success out, SpRes.success _ =>
        match findMarkerRes out dev with
        | some r => r
        | none => detectSpec calls (kk + 3) rest dev
      | _, _ => detectSpec calls (kk + 3) rest dev
    | _ => detectSpec calls (kk + 1) rest dev

/-- Whether an oracle result is a success. -/
def SpRes.isSuccess : SpRes → Bool
  | SpRes.success _ => true
  | _ => false

/-- Whether an exception is one of the two classified failure kinds of the
repository (ProvisioningError or RecoveryError). -/
def PyErr.isClassified : PyErr → Bool
  | PyErr.provisioningError _ => true
  | PyErr.recoveryError _ => true
  | _ => false

/-- Whether an effect is a remote command issued through the remote command
executor. -/
def Effect.isRemote : Effect → Bool
  | Effect.runCmd _ => true
  | _ => false

/-- Whether the first list of characters begins the second. -/
def charsLeading : List Char → List Char → Bool
  | [], _ => true
  | _ :: _, [] => false
  | a :: as, b :: bs => a == b && charsLeading as bs

/-- Whether the first list of characters occurs inside the second. -/
def charsInside (needle : List Char) : List Char → Bool
  | [] => charsLeading needle []
  | b :: bs => charsLeading needle (b :: bs) || charsInside needle bs

/-- Whether the first string occurs as a substring of the second. -/
def strInside (needle haystack : String) : Bool :=
  charsInside needle.toList haystack.toList

/-- Whether an effect mentions the conflicting default cloud-init fragment. -/
def Effect.mentionsFragment : Effect → Bool
  | Effect.runCmd c => strInside "99-fake_cloud.cfg" c
  | _ => false

/-- Whether a trace contains no RPC connection attempt and no RPC call. -/
def noRpcActivity (tr : List Effect) : Bool :=
  tr.all (fun e => match e with
    | Effect.connect _ _ => false
    | Effect.rpcProvision _ _ _ _ => false
    | _ => true)

/-- Arguments handed to a device connector by the excluded CLI layer: the
config file path and the job data file path. -/
structure ZArgs where
  config : String
  job_data : String

/-- The zapper connector: the provisioning method name of the concrete
subclass, and its _validate_configuration extension point. Modelled from the
spec: concrete subclasses are outside the source slice; validation fully
validates and shapes the request locally, producing positional and keyword
arguments or raising. -/
structure ZapperConnector where
  provision_method : String
  validate : String → String → Except PyErr (List String × List (String × String))

/-- ZapperConnector.ZAPPER_SERVICE_PORT. -/
def ZAPPER_SERVICE_PORT : Nat := 60000

/-- ZapperConnector.ZAPPER_REQUEST_TIMEOUT (60 * 90 seconds). -/
def ZAPPER_REQUEST_TIMEOUT : Nat := 60 * 90

/-- Opening and yaml-loading the config file, through the per-run oracle;
an unreadable or invalid file raises. -/
def load_yaml (path : String) : M Json := fun s =>
  match s.read_yaml path with
  | some j => (Except.ok j, s)
  | none => (Except.error (PyErr.otherError "could not load config file"), s)

/-- Modelled from the spec: testflinger_device_connectors.configure_logging,
out-of-scope logging setup, recorded as an effect. -/
def configure_logging (config : Json) : M Unit := fun s =>
  (Except.ok (), { s with trace := s.trace ++ [Effect.configureLogging] })

/-- Lift a pure Except result into the monad. -/
def liftE (r : Except PyErr α) : M α := fun s => (r, s)

/-- Python subscription of a str value with a str key, as in
args.config[\"controller_host\"]: always a TypeError (string indices must
be integers). -/
def str_getitem (s key : String) : M String := fun st =>
  (Except.error (PyErr.typeError "string indices must be integers"), st)

/-- rpyc.connect to the zapper service port: a network call through the
oracle, recorded as a connection attempt. -/
def rpyc_connect (host : String) (port : Nat) : M Unit := fun s =>
  match extCall (Effect.connect host port) s with
  | (Except.ok _, s1) => (Except.ok (), s1)
  | (Except.error _, s1) => (Except.error (PyErr.otherError "rpyc connect failed"), s1)

/-- connection.root.provision: the single synchronous RPC call, forwarding
the validated arguments and the connector logger. -/
def rpc_provision_call (method : String) (args : List String)
    (kwargs : List (String × String)) : M Unit := fun s =>
  match extCall (Effect.rpcProvision method args true kwargs) s with
  | (Except.ok _, s1) => (Except.ok (), s1)
  | (Except.error _, s1) => (Except.error (PyErr.otherError "rpc call failed"), s1)

/-- ZapperConnector._run: open the RPC session and issue the single
provision call. -/
def ZapperConnector._run (self : ZapperConnector) (zapper_ip : String)
    (args : List String) (kwargs : List (String × String)) : M Unit := do
  rpyc_connect zapper_ip ZAPPER_SERVICE_PORT
  rpc_provision_call self.provision_method args kwargs

/-- ZapperConnector.provision: load and yaml-parse the config file, configure
logging, validate, then call _run with args.config[\"controller_host\"] --
note the source subscripts args.config, the config file path string, not the
loaded config mapping. -/
def ZapperConnector.provision (self : ZapperConnector) (args : ZArgs) : M Unit := do
  let config ← load_yaml args.config
  configure_logging config
  let va ← liftE (self.validate args.config args.job_data)
  let host ← str_getitem args.config "controller_host"
  self._run host va.1 va.2

/-- Terminal outcome of a decorated connector entry point. -/
inductive POutcome (α : Type) where
  | ok (a : α)
  | exited (code : Nat)
  | raised (e : PyErr)
deriving DecidableEq

/-- Modelled from the spec: the catch decorator of
testflinger_device_connectors.devices (outside the source slice) maps a
raised RecoveryError to the fixed recovery exit code given at the call site;
other exceptions propagate. -/
def catch_with (cls_code : Nat) (x : M α) : St → POutcome α × St := fun s =>
  match x s with
  | (Except.ok a, s1) => (POutcome.ok a, s1)
  | (Except.error (PyErr.recoveryError _), s1) => (POutcome.exited cls_code, s1)
  | (Except.error e, s1) => (POutcome.raised e, s1)

/-- The decorated entry point: catch(RecoveryError, 46) applied to
ZapperConnector.provision. -/
def ZapperConnector.provision_entry (self : ZapperConnector) (args : ZArgs) :
    St → POutcome Unit × St :=
  catch_with 46 (self.provision args)

/-- A baseline execution state: every external call succeeds with empty
output and zero duration. -/
def baseSt : St :=
  { calls := fun _ => (SpRes.success "", 0)
    k := 0
    now := 0
    trace := []
    local_ip := "10.10.10.1"
    serve_port := 8123
    parse_json := fun _ => none
    read_yaml := fun _ => none }

/-- A concrete muxpi device config used for concrete executions. -/
def cfg0 : Config :=
  { control_host := some "ctl"
    control_user := none
    test_device := some "/dev/sda"
    control_switch_local_cmd := none
    control_switch_device_cmd := none
    reboot_script := []
    post_provision_script := []
    device_ip := some "10.0.0.5" }

/-- Concrete job data with a provisioning url and no test_data section. -/
def jd0 : JobData := { provision_data := some { url := some "http://x/img.xz" }, test_data := none }

/-- A concrete MuxPi agent. -/
def mux0 : MuxPi := { config := cfg0, job_data := jd0 }

/-- An environment in which the third external call (the flash pipeline
command, after the switch-local command and the pre-flash unmount) exits
non-zero and every other call succeeds. -/
def stFlashFail : St :=
  { baseSt with calls := fun kk =>
      if kk == 2 then (SpRes.calledProcessError "dd failed", 0) else (SpRes.success "", 0) }

/-- An environment for the image-type detection loop in which the first
candidate mounts, lists a marker directory, but fails to unmount, and the
second candidate mounts, lists snaps, and unmounts. -/
def stDetect : St :=
  { baseSt with calls := fun kk =>
      if kk == 0 then (SpRes.success "", 0)
      else if kk == 1 then (SpRes.success "etc", 0)
      else if kk == 2 then (SpRes.calledProcessError "umount: /mnt: target is busy", 0)
      else (SpRes.success "snaps", 0) }

/-- An environment in which the first external call hits its timeout. -/
def stTimeout : St :=
  { baseSt with calls := fun _ => (SpRes.timeoutExpired "partial output", 0) }

/-- An execution state whose yaml oracle loads a config mapping with a
controller_host entry. -/
def stZ : St :=
  { baseSt with read_yaml := fun _ => some (Json.obj [("controller_host", Json.str "10.1.1.1")]) }

/-- A zapper connector whose validation succeeds, shaping concrete
positional and keyword arguments. -/
def zcOK : ZapperConnector :=
  { provision_method := "ProvisioningMethod"
    validate := fun _ _ => Except.ok (["arg1"], [("k1", "v1")]) }

/-- A zapper connector whose validation fails with a RecoveryError. -/
def zcBad : ZapperConnector :=
  { provision_method := "ProvisioningMethod"
    validate := fun _ _ => Except.error (PyErr.recoveryError "invalid job data") }

/-- Concrete CLI arguments for the zapper connector. -/
def zargs : ZArgs := { config := "/path/device.yaml", job_data := "/path/job.json" }

/-- Unfolding of monadic bind applied to a state. -/
@[simp] theorem M.bind_run (x : M α) (f : α → M β) (s : St) :
    (x >>= f) s =
      match x s with
      | (Except.ok a, s1) => f a s1
      | (Except.error e, s1) => (Except.error e, s1) := rfl

/-- Unfolding of the explicit bind applied to a state. -/
@[simp] theorem M.mbind_run (x : M α) (f : α → M β) (s : St) :
    M.bind x f s =
      match x s with
      | (Except.ok a, s1) => f a s1
      | (Except.error e, s1) => (Except.error e, s1) := rfl

/-- Unfolding of pure applied to a state. -/
@[simp] theorem M.pure_run (a : α) (s : St) : (Pure.pure a : M α) s = (Except.ok a, s) := rfl

/-- Unfolding of the explicit pure applied to a state. -/
@[simp] theorem M.mpure_run (a : α) (s : St) : M.pure a s = (Except.ok a, s) := rfl

/-- A successful oracle result carries an output. -/
theorem isSuccess_exists {r : SpRes} (h : r.isSuccess = true) :
    ∃ out, r = SpRes.success out := by
  cases r with
  | success out => exact ⟨out, rfl⟩
  | calledProcessError out => simp [SpRes.isSuccess] at h
  | timeoutExpired out => simp [SpRes.isSuccess] at h

/-- The state after an external call, explicitly. -/
theorem afterCall_eq (eff : Effect) (s : St) :
    afterCall eff s =
      { s with
          k := s.k + 1
          now := s.now + (s.calls s.k).2
          trace := s.trace ++ [eff] } := by
  simp only [afterCall, extCall]
  cases h : (s.calls s.k).1 <;> simp [h]

/-- Trace of the state after an external call. -/
@[simp] theorem afterCall_trace (eff : Effect) (s : St) :
    (afterCall eff s).trace = s.trace ++ [eff] := by rw [afterCall_eq]

/-- Oracle of the state after an external call. -/
@[simp] theorem afterCall_calls (eff : Effect) (s : St) :
    (afterCall eff s).calls = s.calls := by rw [afterCall_eq]

/-- Counter of the state after an external call. -/
@[simp] theorem afterCall_k (eff : Effect) (s : St) :
    (afterCall eff s).k = s.k + 1 := by rw [afterCall_eq]

/-- Full characterization of one remote command execution in terms of the
oracle result. -/
theorem run_control_run (self : MuxPi) (cmd : String) (timeout : Nat) (s : St) :
    self._run_control cmd timeout s =
      (match (s.calls s.k).1 with
        | SpRes.success out => Except.ok out
        | SpRes.calledProcessError out => Except.error (PyErr.provisioningError out)
        | SpRes.timeoutExpired out => Except.error (PyErr.timeoutExpired out),
       afterCall (Effect.runCmd cmd) s) := by
  cases h : (s.calls s.k).1 <;> simp [MuxPi._run_control, extCall, afterCall, h]

/-- Scoped release for remote_mount: whenever the mount command succeeds,
the trace after the scope is the trace after the body followed by exactly
one umount command for the mount point, whether the body returns normally
or raises. -/
theorem remote_mount_trace (self : MuxPi) (dev mp : String) {α : Type} (body : M α)
    (s : St) (hs : (s.calls s.k).1.isSuccess = true) :
    (MuxPi.remote_mount self dev mp body s).2.trace =
      (body (afterCall (Effect.runCmd ("sudo mount /dev/" ++ dev ++ " " ++ mp)) s)).2.trace
        ++ [Effect.runCmd ("sudo umount " ++ mp)] := by
  obtain ⟨out, hout⟩ := isSuccess_exists hs
  simp only [MuxPi.remote_mount, run_control_run, hout]
  rcases hb : body (afterCall (Effect.runCmd ("sudo mount /dev/" ++ dev ++ " " ++ mp)) s)
    with ⟨rb, s2⟩
  cases rb <;> cases hu : (s2.calls s2.k).1 <;> simp [hb, hu]

/-- Unmount before flash: with test_device configured, flash_test_image
always issues the unmount of the partitions of the target device as its
first remote command and the flash pipeline as its second. -/
theorem flash_order (self : MuxPi) (ip : String) (port : Nat) (td : String) (s : St)
    (h : self.config.test_device = some td) :
    ∃ rest, (self.flash_test_image ip port s).2.trace =
      s.trace ++ Effect.runCmd ("sudo umount " ++ td ++ "*") ::
        Effect.runCmd ("nc.traditional " ++ ip ++ " " ++ toString port ++
          "| xzcat| sudo dd of=" ++ td ++ " bs=16M") :: rest := by
  cases h0 : (s.calls s.k).1 <;> cases h1 : (s.calls (s.k + 1)).1 <;>
    cases h2 : (s.calls (s.k + 2)).1 <;> cases h3 : (s.calls (s.k + 3)).1 <;>
    simp [MuxPi.flash_test_image, MuxPi.unmount_writable_partition, pytry, dictGet,
      raiseE, sleepM, run_control_run, h, h0, h1, h2, h3]

/-- C1: every mount created through the scoped mount operation is released
on every exit path: when the mount command succeeds, exactly one unmount
command for the mount point is issued after the body, whether the body
returns normally or raises; and the state machine never flashes while the
target device is mounted: flash_test_image issues the unmount of the target
partitions before the flash pipeline command. -/
theorem mount_scope_release_and_flash_order :
    (∀ (self : MuxPi) (dev mp : String) (α : Type) (body : M α) (s : St),
      (s.calls s.k).1.isSuccess = true →
      (MuxPi.remote_mount self dev mp body s).2.trace =
        (body (afterCall (Effect.runCmd ("sudo mount /dev/" ++ dev ++ " " ++ mp)) s)).2.trace
          ++ [Effect.runCmd ("sudo umount " ++ mp)])
    ∧
    (∀ (self : MuxPi) (ip : String) (port : Nat) (td : String) (s : St),
      self.config.test_device = some td →
      ∃ rest, (self.flash_test_image ip port s).2.trace =
        s.trace ++ Effect.runCmd ("sudo umount " ++ td ++ "*") ::
          Effect.runCmd ("nc.traditional " ++ ip ++ " " ++ toString port ++
            "| xzcat| sudo dd of=" ++ td ++ " bs=16M") :: rest) :=
  ⟨fun self dev mp _ body s hs => remote_mount_trace self dev mp body s hs,
   fun self ip port td s h => flash_order self ip port td s h⟩

/-- Witness for C1 at a concrete body and environment. -/
theorem mount_scope_release_and_flash_order_witness :
    ((MuxPi.remote_mount mux0 "sda1" "/mnt" (raiseE (PyErr.otherError "body failed") : M Nat)
        baseSt).2.trace =
      ((raiseE (PyErr.otherError "body failed") : M Nat)
        (afterCall (Effect.runCmd ("sudo mount /dev/" ++ "sda1" ++ " " ++ "/mnt")) baseSt)).2.trace
        ++ [Effect.runCmd ("sudo umount " ++ "/mnt")])
    ∧ (∃ rest, (mux0.flash_test_image "10.10.10.1" 8123 baseSt).2.trace =
        baseSt.trace ++ Effect.runCmd ("sudo umount " ++ "/dev/sda" ++ "*") ::
          Effect.runCmd ("nc.traditional " ++ "10.10.10.1" ++ " " ++ toString 8123 ++
            "| xzcat| sudo dd of=" ++ "/dev/sda" ++ " bs=16M") :: rest) :=
  ⟨mount_scope_release_and_flash_order.1 mux0 "sda1" "/mnt" Nat
      (raiseE (PyErr.otherError "body failed")) baseSt rfl,
   mount_scope_release_and_flash_order.2 mux0 "10.10.10.1" 8123 "/dev/sda" baseSt rfl⟩

/-- C4: for all job data missing the provision_data url key, MuxPi.provision
fails with a ProvisioningError before any remote command is issued: the
result is the configuration error and the effect trace is unchanged, so in
particular zero invocations of the remote command executor occur. -/
theorem provision_missing_url_fails_before_remote (self : MuxPi) (s : St)
    (h : self.job_data.provision_data = none ∨
      ∃ pd, self.job_data.provision_data = some pd ∧ pd.url = none) :
    (self.provision s).1 = Except.error (PyErr.provisioningError
      "You must specify a \"url\" value in the \"provision_data\" section of your job_data")
    ∧ (self.provision s).2.trace = s.trace := by
  rcases h with h | ⟨pd, h1, h2⟩
  · constructor <;> simp [MuxPi.provision, pytry, dictGet, raiseE, h]
  · constructor <;> simp [MuxPi.provision, pytry, dictGet, raiseE, h1, h2]

/-- Witness for C4 at concrete job data missing the url key. -/
theorem provision_missing_url_fails_before_remote_witness :
    (MuxPi.provision ⟨cfg0, ⟨none, none⟩⟩ baseSt).1 = Except.error (PyErr.provisioningError
      "You must specify a \"url\" value in the \"provision_data\" section of your job_data")
    ∧ (MuxPi.provision ⟨cfg0, ⟨none, none⟩⟩ baseSt).2.trace = baseSt.trace :=
  provision_missing_url_fails_before_remote ⟨cfg0, ⟨none, none⟩⟩ baseSt (Or.inl rfl)

/-- C9: for all device configs missing test_device, the pre-flash unmount
step fails with a RecoveryError (and issues nothing), not a
ProvisioningError; for configs that have the key, any failure of the unmount
command itself is swallowed and the step completes without raising, for
every environment. -/
theorem unmount_writable_partition_error_classes :
    (∀ (self : MuxPi) (s : St), self.config.test_device = none →
      (self.unmount_writable_partition s).1 =
        Except.error (PyErr.recoveryError "Device config missing test_device")
      ∧ (self.unmount_writable_partition s).2.trace = s.trace)
    ∧
    (∀ (self : MuxPi) (td : String) (s : St), self.config.test_device = some td →
      (self.unmount_writable_partition s).1 = Except.ok ()) := by
  constructor
  · intro self s h
    constructor <;>
      simp [MuxPi.unmount_writable_partition, pytry, dictGet, raiseE, h]
  · intro self td s h
    simp only [MuxPi.unmount_writable_partition, pytry, dictGet, h, M.mbind_run]
    rcases hr : (s.calls s.k).1 <;>
      simp [MuxPi._run_control, extCall, hr, M.pure]

/-- Witness for C9 at a config missing test_device and at one having it. -/
theorem unmount_writable_partition_error_classes_witness :
    ((MuxPi.unmount_writable_partition ⟨{ cfg0 with test_device := none }, jd0⟩ baseSt).1 =
      Except.error (PyErr.recoveryError "Device config missing test_device"))
    ∧ (MuxPi.unmount_writable_partition mux0 stTimeout).1 = Except.ok () := by
  constructor
  · exact (unmount_writable_partition_error_classes.1
      ⟨{ cfg0 with test_device := none }, jd0⟩ baseSt rfl).1
  · exact unmount_writable_partition_error_classes.2 mux0 "/dev/sda" stTimeout rfl

/-- C5 counterexample: when the remote command hits its timeout, the remote
command executor does not fail with one of the classified errors
(ProvisioningError or RecoveryError) carrying the output: the raw
TimeoutExpired exception propagates unclassified. -/
theorem run_control_timeout_unclassified :
    (mux0._run_control "true" 60 stTimeout).1 =
      Except.error (PyErr.timeoutExpired "partial output")
    ∧ (PyErr.timeoutExpired "partial output").isClassified = false := by
  constructor <;> rfl

/-- C5 (amended): the remote command executor returns the captured combined
stdout+stderr output on success; it fails with a ProvisioningError carrying
that captured output exactly when the command exits non-zero; when the
timeout expires the unclassified TimeoutExpired exception (still carrying
the captured output) propagates instead. -/
theorem run_control_error_classification (self : MuxPi) (cmd : String) (timeout : Nat)
    (s : St) :
    (∀ out, (s.calls s.k).1 = SpRes.success out →
      self._run_control cmd timeout s = (Except.ok out, afterCall (Effect.runCmd cmd) s))
    ∧ (∀ out, (s.calls s.k).1 = SpRes.calledProcessError out →
      self._run_control cmd timeout s =
        (Except.error (PyErr.provisioningError out), afterCall (Effect.runCmd cmd) s))
    ∧ (∀ out, (s.calls s.k).1 = SpRes.timeoutExpired out →
      self._run_control cmd timeout s =
        (Except.error (PyErr.timeoutExpired out), afterCall (Effect.runCmd cmd) s)) := by
  refine ⟨fun out h => ?_, fun out h => ?_, fun out h => ?_⟩ <;>
    simp [MuxPi._run_control, extCall, afterCall, h]

/-- Witness for C5 (amended) at a concrete non-zero exit. -/
theorem run_control_error_classification_witness :
    (mux0._run_control "false" 60
        { baseSt with calls := fun _ => (SpRes.calledProcessError "boom", 0) }).1 =
      Except.error (PyErr.provisioningError "boom") := by
  rw [(run_control_error_classification mux0 "false" 60
    { baseSt with calls := fun _ => (SpRes.calledProcessError "boom", 0) }).2.1 "boom" rfl]

/-- A try/except whose handler raises a fixed error yields either the Unit
success or that fixed error. -/
theorem pytry_raise_dichotomy (x : M Unit) (e0 : PyErr) (s : St) :
    (pytry x (fun _ => raiseE e0) s).1 = Except.ok () ∨
    (pytry x (fun _ => raiseE e0) s).1 = Except.error e0 := by
  rcases hx : x s with ⟨r, s1⟩
  cases r with
  | ok a => left; cases a; simp [pytry, hx]
  | error e => right; simp [pytry, hx, raiseE]

set_option maxRecDepth 8192 in
/-- C8: credential injection for detected image type ubuntu issues, in
order, the seed directory creation, the meta-data write, the user-data
write, and finally the removal of the conflicting default cloud-init
fragment etc/cloud/cloud.cfg.d/99-fake_cloud.cfg under the mount base, as
the last command, so the fragment no longer exists on the mounted partition
afterwards; for image types core and core20 no issued command mentions that
fragment; and any failure during credential injection is reported as the
ProvisioningError for user file creation. -/
theorem create_user_fragment_handling :
    (∀ (self : MuxPi) (s : St), (∀ j, s.calls j = (SpRes.success "", 0)) →
      (self.create_user "ubuntu" s).1 = Except.ok ()
      ∧ (self.create_user "ubuntu" s).2.trace = s.trace ++
        [Effect.runCmd ("sudo mkdir -p " ++ "/mnt/var/lib/cloud/seed/nocloud-net"),
         Effect.runCmd (write_cmd cloud_metadata "/mnt/var/lib/cloud/seed/nocloud-net"
           "meta-data"),
         Effect.runCmd (write_cmd cloud_userdata "/mnt/var/lib/cloud/seed/nocloud-net"
           "user-data"),
         Effect.runCmd ("sudo rm -f " ++ "/mnt" ++ "/etc/cloud/cloud.cfg.d/99-fake_cloud.cfg")])
    ∧
    (∀ (self : MuxPi) (s : St) (image_type : String),
      (image_type = "core" ∨ image_type = "core20") → s.trace = [] →
      ((self.create_user image_type s).2.trace.all (fun e => !e.mentionsFragment)) = true)
    ∧
    (∀ (self : MuxPi) (s : St) (image_type : String),
      (self.create_user image_type s).1 = Except.ok ()
      ∨ (self.create_user image_type s).1 =
          Except.error (PyErr.provisioningError "Error creating user files")) := by
  refine ⟨?_, ?_, ?_⟩
  · intro self s h
    constructor <;>
      simp [MuxPi.create_user, pytry, run_control_run, raiseE, h]
  · intro self s image_type hit htr
    rcases hit with rfl | rfl <;>
      cases h0 : (s.calls s.k).1 <;> cases h1 : (s.calls (s.k + 1)).1 <;>
      cases h2 : (s.calls (s.k + 2)).1 <;>
      · simp [MuxPi.create_user, pytry, run_control_run, raiseE, htr, h0, h1, h2]
        decide
  · intro self s image_type
    simp only [MuxPi.create_user]
    exact pytry_raise_dichotomy _ _ s

/-- Witness for C8 at the concrete agent and an all-success environment. -/
theorem create_user_fragment_handling_witness :
    (mux0.create_user "ubuntu" baseSt).1 = Except.ok ()
    ∧ (mux0.create_user "ubuntu" baseSt).2.trace = baseSt.trace ++
      [Effect.runCmd ("sudo mkdir -p " ++ "/mnt/var/lib/cloud/seed/nocloud-net"),
       Effect.runCmd (write_cmd cloud_metadata "/mnt/var/lib/cloud/seed/nocloud-net"
         "meta-data"),
       Effect.runCmd (write_cmd cloud_userdata "/mnt/var/lib/cloud/seed/nocloud-net"
         "user-data"),
       Effect.runCmd ("sudo rm -f " ++ "/mnt" ++ "/etc/cloud/cloud.cfg.d/99-fake_cloud.cfg")] :=
  create_user_fragment_handling.1 mux0 baseSt (fun _ => rfl)

/-- The boot-verification loop, on any budget bound, either returns True or
raises the boot-failure ProvisioningError: no other outcome (in particular
never a RecoveryError) is possible. -/
theorem check_loop_cases (self : MuxPi) (user pwd : String) (started : Nat) :
    ∀ (n : Nat) (s : St), started + 600 - s.now ≤ n →
      (MuxPi.check_loop self user pwd started s).1 = Except.ok true ∨
      (MuxPi.check_loop self user pwd started s).1 =
        Except.error (PyErr.provisioningError "Failed to boot test image!") := by
  intro n
  induction n with
  | zero =>
    intro s hn
    rw [MuxPi.check_loop]
    have hcond : ¬ (s.now - started < 600) := by omega
    simp [hcond]
  | succ n ih =>
    intro s hn
    rw [MuxPi.check_loop]
    by_cases hcond : s.now - started < 600
    · rw [dif_pos hcond]
      cases hip : self.config.device_ip with
      | none => exact ih _ (show started + 600 - (s.now + 10) ≤ n by omega)
      | some ip =>
        simp only [hip]
        cases hr : (s.calls s.k).1 with
        | success out => simp [hr]
        | calledProcessError out =>
          simp only [hr]
          exact ih _ (show started + 600 - (s.now + 10 + (s.calls s.k).2) ≤ n by omega)
        | timeoutExpired out =>
          simp only [hr]
          exact ih _ (show started + 600 - (s.now + 10 + (s.calls s.k).2) ≤ n by omega)
    · rw [dif_neg hcond]
      simp

/-- When no attempt ever succeeds, the boot-verification loop raises the
boot-failure ProvisioningError. -/
theorem check_loop_all_fail (self : MuxPi) (user pwd : String) (started : Nat) :
    ∀ (n : Nat) (s : St), started + 600 - s.now ≤ n →
      (∀ j, (s.calls j).1.isSuccess = false) →
      (MuxPi.check_loop self user pwd started s).1 =
        Except.error (PyErr.provisioningError "Failed to boot test image!") := by
  intro n
  induction n with
  | zero =>
    intro s hn hfail
    rw [MuxPi.check_loop]
    have hcond : ¬ (s.now - started < 600) := by omega
    simp [hcond]
  | succ n ih =>
    intro s hn hfail
    rw [MuxPi.check_loop]
    by_cases hcond : s.now - started < 600
    · rw [dif_pos hcond]
      cases hip : self.config.device_ip with
      | none =>
        exact ih _ (show started + 600 - (s.now + 10) ≤ n by omega) (fun j => hfail j)
      | some ip =>
        simp only [hip]
        cases hr : (s.calls s.k).1 with
        | success out =>
          have := hfail s.k
          rw [hr] at this
          simp [SpRes.isSuccess] at this
        | calledProcessError out =>
          simp only [hr]
          exact ih _ (show started + 600 - (s.now + 10 + (s.calls s.k).2) ≤ n by omega)
            (fun j => hfail j)
        | timeoutExpired out =>
          simp only [hr]
          exact ih _ (show started + 600 - (s.now + 10 + (s.calls s.k).2) ≤ n by omega)
            (fun j => hfail j)
    · rw [dif_neg hcond]

/-- When the budget is open and the next attempt succeeds, the loop returns
True immediately after exactly one sleep and one credential exchange. -/
theorem check_loop_first_success (self : MuxPi) (user pwd : String) (started : Nat)
    (s : St) (ip out : String) (d : Nat)
    (hip : self.config.device_ip = some ip)
    (hb : s.now - started < 600)
    (hc : s.calls s.k = (SpRes.success out, d)) :
    (MuxPi.check_loop self user pwd started s).1 = Except.ok true
    ∧ (MuxPi.check_loop self user pwd started s).2.trace =
        s.trace ++ [Effect.sleep 10, Effect.localCmd (check_cmd user pwd ip)]
    ∧ (MuxPi.check_loop self user pwd started s).2.k = s.k + 1 := by
  refine ⟨?_, ?_, ?_⟩ <;>
    · rw [MuxPi.check_loop, dif_pos hb]
      simp [hip, hc]

/-- C3: the boot verifier delegates to the retry loop started at the
current clock with the job-data credentials, defaulting to ubuntu/ubuntu;
while fewer than 600 seconds have elapsed the loop sleeps 10 seconds and
performs one credential exchange per attempt against the device network
address; the first successful attempt returns True immediately (one attempt
consumed); every run either returns True or raises the ProvisioningError
for a failed boot (never a recovery failure); and when no attempt ever
succeeds the loop raises exactly that ProvisioningError. -/
theorem check_test_image_booted_bounded_retry :
    (∀ (self : MuxPi) (s : St),
      self.check_test_image_booted s =
        MuxPi.check_loop self (jobTestUsername self.job_data)
          (jobTestPassword self.job_data) s.now s)
    ∧ (∀ (jd : JobData), jd.test_data = none →
        jobTestUsername jd = "ubuntu" ∧ jobTestPassword jd = "ubuntu")
    ∧ (∀ (self : MuxPi) (user pwd : String) (started : Nat) (s : St) (ip out : String)
        (d : Nat), self.config.device_ip = some ip → s.now - started < 600 →
        s.calls s.k = (SpRes.success out, d) →
        (MuxPi.check_loop self user pwd started s).1 = Except.ok true
        ∧ (MuxPi.check_loop self user pwd started s).2.trace =
            s.trace ++ [Effect.sleep 10, Effect.localCmd (check_cmd user pwd ip)]
        ∧ (MuxPi.check_loop self user pwd started s).2.k = s.k + 1)
    ∧ (∀ (self : MuxPi) (user pwd : String) (started : Nat) (s : St),
        (MuxPi.check_loop self user pwd started s).1 = Except.ok true ∨
        (MuxPi.check_loop self user pwd started s).1 =
          Except.error (PyErr.provisioningError "Failed to boot test image!"))
    ∧ (∀ (self : MuxPi) (user pwd : String) (started : Nat) (s : St),
        (∀ j, (s.calls j).1.isSuccess = false) →
        (MuxPi.check_loop self user pwd started s).1 =
          Except.error (PyErr.provisioningError "Failed to boot test image!")) :=
  ⟨fun _ _ => rfl,
   fun jd h => by simp [jobTestUsername, jobTestPassword, h],
   fun self user pwd started s ip out d hip hb hc =>
     check_loop_first_success self user pwd started s ip out d hip hb hc,
   fun self user pwd started s =>
     check_loop_cases self user pwd started (started + 600 - s.now) s (Nat.le_refl _),
   fun self user pwd started s hfail =>
     check_loop_all_fail self user pwd started (started + 600 - s.now) s (Nat.le_refl _) hfail⟩

/-- Witness for C3: with an all-success environment the first attempt
returns True; with an environment that never succeeds the verifier raises
the boot-failure ProvisioningError. -/
theorem check_test_image_booted_bounded_retry_witness :
    (MuxPi.check_loop mux0 "ubuntu" "ubuntu" 0 baseSt).1 = Except.ok true
    ∧ (MuxPi.check_loop mux0 "ubuntu" "ubuntu" 0 stTimeout).1 =
        Except.error (PyErr.provisioningError "Failed to boot test image!") :=
  ⟨(check_test_image_booted_bounded_retry.2.2.1 mux0 "ubuntu" "ubuntu" 0 baseSt
      "10.0.0.5" "" 0 rfl (by decide) rfl).1,
   check_test_image_booted_bounded_retry.2.2.2.2 mux0 "ubuntu" "ubuntu" 0 stTimeout
     (fun _ => rfl)⟩

/-- C6 (code bug): when the flash pipeline command fails, MuxPi.provision
raises the flashing ProvisioningError without ever terminating the
background transfer server: the server-start effect is on the trace but no
server-terminate effect is, so the bound listener is leaked on this error
path, although the transfer server had been started before the flash
pipeline was issued. -/
theorem provision_flash_error_leaks_file_server :
    (mux0.provision stFlashFail).1 =
      Except.error (PyErr.provisioningError "timeout reached while flashing image!")
    ∧ Effect.serverStart "snappy.img.xz" ∈ (mux0.provision stFlashFail).2.trace
    ∧ Effect.serverTerminate ∉ (mux0.provision stFlashFail).2.trace
    ∧ (mux0.provision stFlashFail).2.trace =
      [Effect.download "http://x/img.xz", Effect.runCmd "stm -ts", Effect.sleep 5,
       Effect.compress "snappy.img", Effect.serverStart "snappy.img.xz",
       Effect.runCmd "sudo umount /dev/sda*",
       Effect.runCmd "nc.traditional 10.10.10.1 8123| xzcat| sudo dd of=/dev/sda bs=16M"] := by
  refine ⟨by decide, by decide, by decide, by decide⟩

/-- C7 (code bug): in the delegated-provisioning connector, a validation
failure (RecoveryError) is mapped to the recovery exit code with zero RPC
connection attempts; but when validation succeeds, provision subscripts
args.config (the config file path string, not the loaded config mapping)
with controller_host, which always raises TypeError, so no RPC connection
and no provision call are ever issued either. -/
theorem zapper_provision_validation_and_typeerror :
    ((zcBad.provision_entry zargs stZ).1 = POutcome.exited 46
      ∧ noRpcActivity (zcBad.provision_entry zargs stZ).2.trace = true)
    ∧ ((zcOK.provision_entry zargs stZ).1 =
        POutcome.raised (PyErr.typeError "string indices must be integers")
      ∧ noRpcActivity (zcOK.provision_entry zargs stZ).2.trace = true) := by
  refine ⟨⟨by decide, by decide⟩, ⟨by decide, by decide⟩⟩

/-- C2 counterexample: the first candidate partition mounts and contains the
marker etc (so by the claim it should determine the result and the second
candidate should never be inspected), but because its scope-exit unmount
fails, the loop swallows the exception, inspects the second candidate, and
classifies from it: the result is core20 from the second candidate and the
mount of the second candidate is on the trace. -/
theorem get_image_type_first_match_counterexample :
    (mux0.get_image_type_loop ["mmcblk0p1", "mmcblk0p2"] "/dev/sda" stDetect).1 =
      Except.ok ("core20", "mmcblk0p2")
    ∧ Effect.runCmd "sudo mount /dev/mmcblk0p2 /mnt" ∈
      (mux0.get_image_type_loop ["mmcblk0p1", "mmcblk0p2"] "/dev/sda" stDetect).2.trace
    ∧ findMarkerRes "etc" "mmcblk0p1" = some ("ubuntu", "mmcblk0p1") := by
  refine ⟨by decide, by decide, by decide⟩

/-- C2 (amended): for every partition listing, the detection loop never
raises, inspects candidates in listed order, and returns the classification
of the first candidate whose mount succeeds, whose listing succeeds, which
contains a marker, and whose scope-exit unmount also succeeds; the failure
of any of these steps for a candidate is swallowed and the next candidate
is tried; if no candidate yields a classification the loop returns unknown
paired with the final loop variable (the last candidate, or the target
device itself when the listing is empty). Stated as refinement: the loop
always returns detectSpec, which has exactly that first-match recursion. -/
theorem get_image_type_loop_refines_detectSpec (self : MuxPi) :
    ∀ (dev_list : List String) (last : String) (s : St),
      (MuxPi.get_image_type_loop self dev_list last s).1 =
        Except.ok (detectSpec s.calls s.k dev_list last) := by
  intro dev_list
  induction dev_list with
  | nil => intro last s; simp [MuxPi.get_image_type_loop, detectSpec]
  | cons dev rest ih =>
    intro last s
    have e2 : s.k + 1 + 1 = s.k + 2 := rfl
    have e3 : s.k + 1 + 1 + 1 = s.k + 3 := rfl
    simp only [MuxPi.get_image_type_loop, MuxPi.remote_mount, run_control_run,
      detectSpec, M.mbind_run, M.mpure_run, afterCall_calls, afterCall_k, e2, e3]
    cases h0 : (s.calls s.k).1 with
    | success out0 =>
      cases h1 : (s.calls (s.k + 1)).1 with
      | success out1 =>
        cases h2 : (s.calls (s.k + 2)).1 with
        | success out2 =>
          cases hf : findMarkerRes out1 dev with
          | some r => simp [h0, h1, h2, hf, e2, e3]
          | none => simp [h0, h1, h2, hf, ih, e2, e3]
        | calledProcessError out2 => simp [h0, h1, h2, ih, e2, e3]
        | timeoutExpired out2 => simp [h0, h1, h2, ih, e2, e3]
      | calledProcessError out1 =>
        cases h2 : (s.calls (s.k + 2)).1 <;> simp [h0, h1, h2, ih, e2, e3]
      | timeoutExpired out1 =>
        cases h2 : (s.calls (s.k + 2)).1 <;> simp [h0, h1, h2, ih, e2, e3]
    | calledProcessError out0 => simp [h0, ih]
    | timeoutExpired out0 => simp [h0, ih]

/-- C10: the credential-injection commands are independent of the job data:
for any two job-data inputs (in particular ones differing only in
test_username or test_password) create_user behaves identically, and the
injected userdata hard-codes the literal ubuntu:ubuntu account; the boot
verifier, in contrast, runs its credential exchange with the username and
password taken from the job data (defaulting to ubuntu/ubuntu). -/
theorem create_user_independent_of_job_credentials :
    (∀ (cfg : Config) (jd1 jd2 : JobData) (image_type : String) (s : St),
      MuxPi.create_user ⟨cfg, jd1⟩ image_type s = MuxPi.create_user ⟨cfg, jd2⟩ image_type s)
    ∧ strInside "ubuntu:ubuntu" cloud_userdata = true
    ∧ (∀ (cfg : Config) (jd : JobData) (s : St),
      MuxPi.check_test_image_booted ⟨cfg, jd⟩ s =
        MuxPi.check_loop ⟨cfg, jd⟩ (jobTestUsername jd) (jobTestPassword jd) s.now s)
    ∧ (∀ (user pwd ip : String), check_cmd user pwd ip =
      ["sshpass", "-p", pwd, "ssh-copy-id", "-o", "StrictHostKeyChecking=no",
       "-o", "UserKnownHostsFile=/dev/null", user ++ "@" ++ ip]) := by
  refine ⟨fun _ _ _ _ _ => rfl, by decide, fun _ _ _ => rfl, fun _ _ _ => rfl⟩

end Testflinger
